import Mathlib

/-!
Verification development for the learning-platform repository.

Shallow embeddings of the code under verification:
* `RunningHub.wait_for_task` — the task-polling loop of
  `RunningHubService.wait_for_task` (src/cron/runninghub_service.py).
* `Pipeline.get_random_voice` — voice selection (src/cron/main.py).
* `Pipeline.normalizeAudioResponse` — TTS response normalization inside
  `generate_audio` (src/cron/main.py).
* `Pipeline.cleanFence` — the markdown-fence stripping of
  `clean_json_response` (src/cron/main.py).
* `Api.get_news`, `Api.get_news_by_id` — the read endpoints (src/api/main.py).
* `Pipeline.process_article`, `Pipeline.job` — the per-article pipeline and
  the batch job (src/cron/main.py).
* `Story.generate_scene_images_and_audio`, `Story.save_story_to_db` — the
  story sub-pipeline (src/cron/story.py).

Python dictionaries with possibly-missing keys are embedded as structures of
`Option` fields, exceptions as an `Except` control flow with the catch-all
handlers of the source represented explicitly, machine-level byte strings as
`List Nat`, and the nondeterminism of `random.choice` as an extra `Nat`
argument selecting an index.
-/

namespace RunningHub

/-- A decoded status-check response: the `code` and `data` fields of the JSON
body that `get_task_status` returns whenever the HTTP status is 200.  `none`
at the call site stands for `get_task_status` returning `None` (network
failure or non-200 status), which the polling loop treats as "not yet
known". -/
structure StatusResponse where
  code : Int
  data : String
deriving DecidableEq, Repr

/-- One entry of the output list returned by `get_task_outputs`. -/
structure Output where
  fileUrl : String
deriving DecidableEq, Repr

/-- Result of one run of the polling loop, instrumented with the number of
`get_task_status` calls performed and the number of fixed `delay_seconds`
sleeps executed. -/
structure WaitOutcome where
  result : Option Output
  polls : Nat
  sleeps : Nat
deriving DecidableEq, Repr

/-- A status response that does not end the loop: either `get_task_status`
returned `None`, or it returned code 0 with a `data` field that is neither
`"SUCCESS"` nor `"FAILED"` (the "still running" branch). -/
def NonTerminal : Option StatusResponse → Prop
  | none => True
  | some r => r.code = 0 ∧ r.data ≠ "SUCCESS" ∧ r.data ≠ "FAILED"

instance (s : Option StatusResponse) : Decidable (NonTerminal s) :=
  match s with
  | none => isTrue trivial
  | some r =>
    inferInstanceAs (Decidable (r.code = 0 ∧ r.data ≠ "SUCCESS" ∧ r.data ≠ "FAILED"))

/-- The body of the `for attempt in range(max_attempts)` loop of
`wait_for_task`, by recursion on the remaining attempt budget.  `status j`
is the response observed by the status check of (0-indexed) attempt `j`;
`outputs` is the output list the remote task would report on success
(`get_task_outputs` returns `None` exactly when this list is empty, and the
loop then returns `None`; otherwise the loop returns the first entry). -/
def waitForTaskAux (status : Nat → Option StatusResponse) (outputs : List Output) :
    Nat → Nat → Nat → Nat → WaitOutcome
  | _, 0, polls, sleeps => ⟨none, polls, sleeps⟩
  | attempt, remaining + 1, polls, sleeps =>
    match status attempt with
    | none => waitForTaskAux status outputs (attempt + 1) remaining (polls + 1) (sleeps + 1)
    | some r =>
      if r.code = 0 ∧ r.data = "SUCCESS" then
        ⟨outputs.head?, polls + 1, sleeps⟩
      else if r.code = 0 ∧ r.data = "FAILED" then
        ⟨none, polls + 1, sleeps⟩
      else if r.code = 0 then
        waitForTaskAux status outputs (attempt + 1) remaining (polls + 1) (sleeps + 1)
      else
        ⟨none, polls + 1, sleeps⟩

/-- `RunningHubService.wait_for_task`: poll up to `maxAttempts` times,
returning the first output on `SUCCESS`, `None` on `FAILED`, on a non-zero
code, or when the attempt budget is exhausted. -/
def wait_for_task (status : Nat → Option StatusResponse) (outputs : List Output)
    (maxAttempts : Nat) : WaitOutcome :=
  waitForTaskAux status outputs 0 maxAttempts 0 0

theorem waitAux_zero (status : Nat → Option StatusResponse) (outputs : List Output)
    (attempt polls sleeps : Nat) :
    waitForTaskAux status outputs attempt 0 polls sleeps = ⟨none, polls, sleeps⟩ := rfl

theorem waitAux_nonterminal {status : Nat → Option StatusResponse} {outputs : List Output}
    {attempt : Nat} (h : NonTerminal (status attempt)) (rem polls sleeps : Nat) :
    waitForTaskAux status outputs attempt (rem + 1) polls sleeps =
      waitForTaskAux status outputs (attempt + 1) rem (polls + 1) (sleeps + 1) := by
  cases hs : status attempt with
  | none => simp [waitForTaskAux, hs]
  | some r =>
    rw [hs] at h
    obtain ⟨h0, hS, hF⟩ := h
    simp [waitForTaskAux, hs, h0, hS, hF]

theorem waitAux_success {status : Nat → Option StatusResponse} {outputs : List Output}
    {attempt : Nat} (hs : status attempt = some ⟨0, "SUCCESS"⟩) (rem polls sleeps : Nat) :
    waitForTaskAux status outputs attempt (rem + 1) polls sleeps =
      ⟨outputs.head?, polls + 1, sleeps⟩ := by
  simp [waitForTaskAux, hs]

theorem waitAux_failed {status : Nat → Option StatusResponse} {outputs : List Output}
    {attempt : Nat} (hs : status attempt = some ⟨0, "FAILED"⟩) (rem polls sleeps : Nat) :
    waitForTaskAux status outputs attempt (rem + 1) polls sleeps =
      ⟨none, polls + 1, sleeps⟩ := by
  simp [waitForTaskAux, hs]

theorem waitAux_shift {status : Nat → Option StatusResponse} {outputs : List Output}
    (k : Nat) :
    ∀ attempt rem polls sleeps, (∀ j, j < k → NonTerminal (status (attempt + j))) →
      k ≤ rem →
      waitForTaskAux status outputs attempt rem polls sleeps =
        waitForTaskAux status outputs (attempt + k) (rem - k) (polls + k) (sleeps + k) := by
  induction k with
  | zero => intro attempt rem polls sleeps _ _; simp
  | succ n ih =>
    intro attempt rem polls sleeps hpre hle
    obtain ⟨m, rfl⟩ : ∃ m, rem = m + 1 := ⟨rem - 1, by omega⟩
    have h0 : NonTerminal (status attempt) := by
      have := hpre 0 (by omega)
      rwa [Nat.add_zero] at this
    rw [waitAux_nonterminal h0]
    have hrest : ∀ j, j < n → NonTerminal (status (attempt + 1 + j)) := by
      intro j hj
      have := hpre (j + 1) (by omega)
      rwa [show attempt + (j + 1) = attempt + 1 + j by omega] at this
    rw [ih (attempt + 1) m (polls + 1) (sleeps + 1) hrest (by omega)]
    congr 1 <;> omega

/-- C1.  Run against any sequence of status responses (attempts 0-indexed):
if the status check of attempt `k < maxAttempts` yields code 0 with data
`"SUCCESS"` after only non-terminal responses, the loop returns a non-null
result — the first entry of the task's outputs — having performed exactly
`k + 1` polls; if attempt `k`'s check yields code 0 with data `"FAILED"`
after only non-terminal responses, the loop returns the failure (`None`)
immediately, with exactly `k + 1` polls and no further poll calls; and if
every response within the budget is non-terminal, the loop returns the
timeout result (`None`) after exactly `maxAttempts` poll calls, each
followed by the fixed delay. -/
theorem wait_for_task_spec (status : Nat → Option StatusResponse) (outputs : List Output)
    (maxAttempts : Nat) :
    (∀ k, k < maxAttempts → (∀ j, j < k → NonTerminal (status j)) →
      status k = some ⟨0, "SUCCESS"⟩ → outputs ≠ [] →
      (wait_for_task status outputs maxAttempts).result = outputs.head? ∧
      (wait_for_task status outputs maxAttempts).result ≠ none ∧
      (wait_for_task status outputs maxAttempts).polls = k + 1) ∧
    (∀ k, k < maxAttempts → (∀ j, j < k → NonTerminal (status j)) →
      status k = some ⟨0, "FAILED"⟩ →
      (wait_for_task status outputs maxAttempts).result = none ∧
      (wait_for_task status outputs maxAttempts).polls = k + 1) ∧
    ((∀ j, j < maxAttempts → NonTerminal (status j)) →
      (wait_for_task status outputs maxAttempts).result = none ∧
      (wait_for_task status outputs maxAttempts).polls = maxAttempts ∧
      (wait_for_task status outputs maxAttempts).sleeps = maxAttempts) := by
  refine ⟨?_, ?_, ?_⟩
  · intro k hk hpre hs hout
    have hshift := @waitAux_shift status outputs k 0 maxAttempts 0 0
      (by simpa using hpre) (by omega)
    obtain ⟨m, hm⟩ : ∃ m, maxAttempts - k = m + 1 := ⟨maxAttempts - k - 1, by omega⟩
    rw [wait_for_task, hshift]
    simp only [Nat.zero_add]
    rw [hm, waitAux_success hs]
    refine ⟨rfl, ?_, rfl⟩
    cases outputs with
    | nil => exact absurd rfl hout
    | cons a l => simp
  · intro k hk hpre hs
    have hshift := @waitAux_shift status outputs k 0 maxAttempts 0 0
      (by simpa using hpre) (by omega)
    obtain ⟨m, hm⟩ : ∃ m, maxAttempts - k = m + 1 := ⟨maxAttempts - k - 1, by omega⟩
    rw [wait_for_task, hshift]
    simp only [Nat.zero_add]
    rw [hm, waitAux_failed hs]
    exact ⟨rfl, rfl⟩
  · intro hall
    have hshift := @waitAux_shift status outputs maxAttempts
      0 maxAttempts 0 0 (by simpa using hall) (by omega)
    rw [wait_for_task, hshift]
    simp only [Nat.zero_add, Nat.sub_self]
    rw [waitAux_zero]
    exact ⟨rfl, rfl, rfl⟩

/-- Concrete witness for C1: with a budget of 5 attempts, a backend that is
still running for 2 polls and then succeeds returns the first output after 3
polls; a backend that fails on its second poll stops after 2 polls; a
backend that never terminates times out after exactly 5 polls and 5
delays. -/
theorem wait_for_task_spec_witness :
    ((wait_for_task
        (fun j => if j = 2 then some ⟨0, "SUCCESS"⟩ else some ⟨0, "RUNNING"⟩)
        [⟨"http://out/a.png"⟩] 5).result = some ⟨"http://out/a.png"⟩ ∧
      (wait_for_task
        (fun j => if j = 2 then some ⟨0, "SUCCESS"⟩ else some ⟨0, "RUNNING"⟩)
        [⟨"http://out/a.png"⟩] 5).polls = 3) ∧
    ((wait_for_task
        (fun j => if j = 1 then some ⟨0, "FAILED"⟩ else some ⟨0, "RUNNING"⟩)
        [⟨"http://out/a.png"⟩] 5).result = none ∧
      (wait_for_task
        (fun j => if j = 1 then some ⟨0, "FAILED"⟩ else some ⟨0, "RUNNING"⟩)
        [⟨"http://out/a.png"⟩] 5).polls = 2) ∧
    ((wait_for_task (fun _ => some ⟨0, "QUEUED"⟩) [⟨"http://out/a.png"⟩] 5).result = none ∧
      (wait_for_task (fun _ => some ⟨0, "QUEUED"⟩) [⟨"http://out/a.png"⟩] 5).polls = 5 ∧
      (wait_for_task (fun _ => some ⟨0, "QUEUED"⟩) [⟨"http://out/a.png"⟩] 5).sleeps = 5) := by
  refine ⟨?_, ?_, ?_⟩
  · have h := (wait_for_task_spec
      (fun j => if j = 2 then some ⟨0, "SUCCESS"⟩ else some ⟨0, "RUNNING"⟩)
      [⟨"http://out/a.png"⟩] 5).1 2 (by omega) (by decide) (by decide) (by decide)
    exact ⟨h.1, h.2.2⟩
  · exact (wait_for_task_spec
      (fun j => if j = 1 then some ⟨0, "FAILED"⟩ else some ⟨0, "RUNNING"⟩)
      [⟨"http://out/a.png"⟩] 5).2.1 1 (by omega) (by decide) (by decide)
  · exact (wait_for_task_spec (fun _ => some ⟨0, "QUEUED"⟩) [⟨"http://out/a.png"⟩] 5).2.2
      (by intro j hj; decide)

end RunningHub

namespace Pipeline

/-! ### clean_json_response (src/cron/main.py, lines 106-127)

The fence-stripping half of `clean_json_response`, embedded at the level of
character lists: the Python function removes a leading three-backtick fence
(with or without the json language tag) via `str.replace(old, new, 1)`,
removes a trailing three-backtick fence via slicing, strips surrounding
whitespace, and only then hands the text to `json.loads`. -/

/-- The whitespace characters removed by Python `str.strip()` (the ASCII
ones, which are the only ones occurring in the inputs considered here). -/
def pyWhitespace (c : Char) : Bool :=
  c == ' ' || c == '\t' || c == '\n' || c == '\r' ||
    c == Char.ofNat 11 || c == Char.ofNat 12

/-- Python `str.strip()`: drop whitespace from both ends. -/
def pyStrip (s : List Char) : List Char :=
  ((s.dropWhile pyWhitespace).reverse.dropWhile pyWhitespace).reverse

/-- Python `str.replace(old, "", 1)` for non-empty `old`: remove the first
(leftmost) occurrence of `old`, scanning from the start. -/
def replaceFirstOnce (old : List Char) : List Char → List Char
  | [] => if old.isPrefixOf ([] : List Char) then List.drop old.length [] else []
  | c :: cs =>
    if old.isPrefixOf (c :: cs) then (c :: cs).drop old.length
    else c :: replaceFirstOnce old cs

/-- The fence-stripping steps of `clean_json_response` (everything before the
`json.loads` call). -/
def cleanFence (s : List Char) : List Char :=
  let s1 :=
    if ("```json".data).isPrefixOf s then replaceFirstOnce "```json".data s
    else if ("```".data).isPrefixOf s then replaceFirstOnce "```".data s
    else s
  let s2 := if ("```".data).isSuffixOf s1 then s1.take (s1.length - 3) else s1
  pyStrip s2

theorem replaceFirstOnce_of_isPrefixOf {old s : List Char}
    (h : old.isPrefixOf s = true) : replaceFirstOnce old s = s.drop old.length := by
  cases s with
  | nil => simp [replaceFirstOnce, h]
  | cons c cs => simp [replaceFirstOnce, h]

theorem pyStrip_cons_ws {c : Char} (h : pyWhitespace c = true) (s : List Char) :
    pyStrip (c :: s) = pyStrip s := by
  simp [pyStrip, List.dropWhile_cons, h]

theorem pyStrip_append_ws (s : List Char) {c : Char} (h : pyWhitespace c = true) :
    pyStrip (s ++ [c]) = pyStrip s := by
  unfold pyStrip
  rw [List.dropWhile_append]
  by_cases hd : (List.dropWhile pyWhitespace s).isEmpty
  · simp only [hd, if_pos]
    rw [List.isEmpty_iff] at hd
    simp [hd, List.dropWhile_cons, h]
  · simp only [hd, if_neg, Bool.false_eq_true, not_false_iff]
    rw [List.reverse_append]
    simp [List.dropWhile_cons, h]

theorem pyStrip_newline_wrap (s : List Char) :
    pyStrip ('\n' :: (s ++ ['\n'])) = pyStrip s := by
  rw [pyStrip_cons_ws (by decide), pyStrip_append_ws s (by decide)]

theorem isPrefixOf_json_of_fence {s : List Char}
    (hpre : ("```".data).isPrefixOf s = false) :
    ("```json".data).isPrefixOf s = false := by
  by_contra h
  rw [Bool.not_eq_false, List.isPrefixOf_iff_prefix] at h
  have h3 : "```".data <+: s :=
    List.IsPrefix.trans ⟨"json".data, by decide⟩ h
  rw [← List.isPrefixOf_iff_prefix] at h3
  rw [h3] at hpre
  exact Bool.true_eq_false.mp hpre

theorem cleanFence_no_fence {s : List Char}
    (hpre : ("```".data).isPrefixOf s = false)
    (hsuf : ("```".data).isSuffixOf s = false) :
    cleanFence s = pyStrip s := by
  simp only [cleanFence, isPrefixOf_json_of_fence hpre, hpre, hsuf, Bool.false_eq_true,
    if_false]

/-- C7.  The markdown-fence stripping of `clean_json_response` is idempotent
on already-clean input and insensitive to `json` fence wrapping: for any text
with no code fence at either end, (i) if the text carries no surrounding
whitespace, the stripping step returns it unchanged, and (ii) stripping that
text wrapped as three backticks + `json` + newline ... newline + three
backticks yields exactly the same string as stripping the unwrapped text, so
`json.loads` receives identical input and parses to the same object. -/
theorem clean_json_response_fence_spec (s : List Char)
    (hpre : ("```".data).isPrefixOf s = false)
    (hsuf : ("```".data).isSuffixOf s = false) :
    (pyStrip s = s → cleanFence s = s) ∧
    cleanFence ("```json".data ++ '\n' :: (s ++ '\n' :: "```".data)) = cleanFence s := by
  constructor
  · intro hstrip
    rw [cleanFence_no_fence hpre hsuf, hstrip]
  · have hw : ("```json".data).isPrefixOf
        ("```json".data ++ '\n' :: (s ++ '\n' :: "```".data)) = true := by
      rw [List.isPrefixOf_iff_prefix]
      exact List.prefix_append _ _
    have hsplit : '\n' :: (s ++ '\n' :: "```".data) =
        ('\n' :: (s ++ ['\n'])) ++ "```".data := by simp
    have hs2 : ("```".data).isSuffixOf ('\n' :: (s ++ '\n' :: "```".data)) = true := by
      rw [List.isSuffixOf_iff_suffix, hsplit]
      exact List.suffix_append _ _
    rw [cleanFence_no_fence hpre hsuf]
    simp only [cleanFence, hw, if_true]
    rw [replaceFirstOnce_of_isPrefixOf hw, List.drop_left' (by simp), hs2, if_pos rfl]
    rw [hsplit, List.take_left' (by simp), pyStrip_newline_wrap]

/-- Concrete witness for C7 at the clean JSON text `[1, 2]`. -/
theorem clean_json_response_fence_spec_witness :
    cleanFence "[1, 2]".data = "[1, 2]".data ∧
    cleanFence ("```json".data ++ '\n' :: ("[1, 2]".data ++ '\n' :: "```".data)) =
      cleanFence "[1, 2]".data :=
  ⟨(clean_json_response_fence_spec "[1, 2]".data (by decide) (by decide)).1 (by decide),
    (clean_json_response_fence_spec "[1, 2]".data (by decide) (by decide)).2⟩

/-! ### get_random_voice (src/cron/main.py, lines 221-249) -/

/-- One entry of the fixed voice catalog. -/
structure Voice where
  id : String
  name : String
  gender : String
deriving DecidableEq, Repr

/-- The fixed catalog hard-coded in `get_random_voice`. -/
def voices : List Voice :=
  [⟨"IKne3meq5aSn9XLyUdCD", "Charlie", "male"⟩,
   ⟨"Xb7hH8MSUJpSbSDYk0k2", "Alice", "female"⟩,
   ⟨"iP95p4xoKVk53GoZ742B", "Chris", "male"⟩,
   ⟨"cjVigY5qzO86Huf0OWal", "Eric", "male"⟩,
   ⟨"cgSgspJ2msm6clMCkdW9", "Jessica", "female"⟩,
   ⟨"pFZP5JQG7iQjIQuC4Bku", "Lily", "female"⟩]

/-- Python `str.lower()` (ASCII case folding, which covers the catalog's
gender strings and the arguments considered). -/
def pyLower (s : String) : String := String.mk (s.data.map Char.toLower)

/-- The list comprehension filtering the catalog by requested gender. -/
def filtered_voices (gender : String) : List Voice :=
  voices.filter fun v => v.gender == pyLower gender

/-- `get_random_voice`: if `gender` is truthy (non-empty) and some catalog
voice matches `gender.lower()`, pick a random matching voice, otherwise pick
a random voice from the whole catalog.  `random.choice` is embedded as
selection of the index `pick % length`, with `pick` ranging over all
naturals, so every element is reachable and properties proved for all `pick`
hold regardless of random seed. -/
def get_random_voice (gender : String) (pick : Nat) : Option Voice :=
  if gender ≠ "" then
    if filtered_voices gender ≠ [] then
      (filtered_voices gender).get? (pick % (filtered_voices gender).length)
    else voices.get? (pick % voices.length)
  else voices.get? (pick % voices.length)

theorem choice_mem {α : Type} (l : List α) (k : Nat) (h : l ≠ []) :
    ∃ v, l.get? (k % l.length) = some v ∧ v ∈ l := by
  have hlen : 0 < l.length := List.length_pos.mpr h
  have hm : k % l.length < l.length := Nat.mod_lt _ hlen
  exact ⟨l.get ⟨k % l.length, hm⟩, List.get?_eq_get hm, List.get_mem _ _ _⟩

/-- C8.  For every gender argument and every random pick: if the catalog
contains at least one voice whose gender equals `gender.lower()`, the chosen
voice has that gender (provided `gender` is truthy, as Python's `if gender:`
requires); and if no catalog voice matches, the choice falls back to the
full unfiltered catalog and still returns some catalog voice. -/
theorem get_random_voice_spec (gender : String) (pick : Nat) :
    (gender ≠ "" → (∃ v ∈ voices, v.gender = pyLower gender) →
      ∃ v, get_random_voice gender pick = some v ∧ v.gender = pyLower gender) ∧
    ((¬ ∃ v ∈ voices, v.gender = pyLower gender) →
      get_random_voice gender pick = voices.get? (pick % voices.length) ∧
      ∃ v, get_random_voice gender pick = some v ∧ v ∈ voices) := by
  constructor
  · intro hg hex
    obtain ⟨w, hw, hweq⟩ := hex
    have hne : filtered_voices gender ≠ [] := by
      intro hnil
      have hmem : w ∈ filtered_voices gender := by
        rw [filtered_voices, List.mem_filter]
        exact ⟨hw, by simp [hweq]⟩
      rw [hnil] at hmem
      exact List.not_mem_nil w hmem
    obtain ⟨v, hvget, hvmem⟩ := choice_mem (filtered_voices gender) pick hne
    refine ⟨v, ?_, ?_⟩
    · rw [get_random_voice, if_pos hg, if_pos hne, hvget]
    · rw [filtered_voices, List.mem_filter] at hvmem
      exact eq_of_beq hvmem.2
  · intro hnone
    have hfe : filtered_voices gender = [] := by
      rw [filtered_voices, List.filter_eq_nil_iff]
      intro v hv hbeq
      exact hnone ⟨v, hv, eq_of_beq hbeq⟩
    have hfull : get_random_voice gender pick = voices.get? (pick % voices.length) := by
      by_cases hg : gender = ""
      · rw [get_random_voice, if_neg (by simp [hg])]
      · rw [get_random_voice, if_pos hg, if_neg (by simp [hfe])]
    obtain ⟨v, hvget, hvmem⟩ := choice_mem voices pick (by decide)
    exact ⟨hfull, v, by rw [hfull, hvget], hvmem⟩

/-- Concrete witness for C8: requesting a female voice always yields a
female voice (shown at pick 7), and requesting the unmatched gender
`martian` falls back to the whole catalog. -/
theorem get_random_voice_spec_witness :
    (∃ v, get_random_voice "female" 7 = some v ∧ v.gender = pyLower "female") ∧
    (get_random_voice "martian" 7 = voices.get? (7 % voices.length) ∧
      ∃ v, get_random_voice "martian" 7 = some v ∧ v ∈ voices) :=
  ⟨(get_random_voice_spec "female" 7).1 (by decide)
      ⟨⟨"Xb7hH8MSUJpSbSDYk0k2", "Alice", "female"⟩, by decide, by decide⟩,
    (get_random_voice_spec "martian" 7).2 (by decide)⟩

/-! ### Audio response normalization in generate_audio
(src/cron/main.py, lines 305-322) -/

/-- The three shapes a TTS response can take at the normalization point of
`generate_audio`: a file-like object exposing `read` (first branch), an
iterable of byte chunks that is neither `bytes` nor `str` (second branch),
or a plain byte buffer (fallback branch).  Bytes are embedded as `List
Nat`. -/
inductive TTSResponse where
  | fileLike (content : List Nat)
  | chunked (chunks : List (List Nat))
  | buffer (content : List Nat)
deriving DecidableEq, Repr

/-- The normalization performed by `generate_audio` before writing the file:
`read()` for file-like responses, a `bytearray` accumulation loop for
chunked responses, identity for plain buffers.  The resulting byte sequence
is exactly what is written to the output file. -/
def normalizeAudioResponse : TTSResponse → List Nat
  | .fileLike c => c
  | .chunked cs => cs.foldl (fun acc chunk => acc ++ chunk) []
  | .buffer c => c

/-- The chunk decomposition of a response: a single buffer or file-like
body is one chunk; a chunked response is its list of chunks. -/
def responseChunks : TTSResponse → List (List Nat)
  | .fileLike c => [c]
  | .chunked cs => cs
  | .buffer c => [c]

theorem foldl_append_eq_flatten (cs : List (List Nat)) :
    ∀ acc, cs.foldl (fun a c => a ++ c) acc = acc ++ cs.flatten := by
  induction cs with
  | nil => intro acc; simp
  | cons c cs ih => intro acc; simp [ih, List.append_assoc]

/-- C9.  For every TTS response — single buffer, file-like object, or
iterable of byte chunks — the bytes `generate_audio` writes to the output
file equal the concatenation of all chunks in order; in particular the
chunked response `[b"ab", b"cd"]` persists as `b"abcd"`. -/
theorem generate_audio_normalization (r : TTSResponse) :
    normalizeAudioResponse r = (responseChunks r).flatten ∧
    normalizeAudioResponse (.chunked [[97, 98], [99, 100]]) = [97, 98, 99, 100] := by
  refine ⟨?_, by decide⟩
  cases r with
  | fileLike c => simp [normalizeAudioResponse, responseChunks]
  | chunked cs => simp [normalizeAudioResponse, responseChunks, foldl_append_eq_flatten]
  | buffer c => simp [normalizeAudioResponse, responseChunks]

end Pipeline

namespace Api

/-! ### The read API (src/api/main.py)

`News` rows as persisted (the flattened three-slot vocab columns), the
`VocabWord`/`NewsResponse` DTOs, the path-to-URL rewriting, and the two news
read endpoints.  The database is embedded as the list of stored rows; the
`ORDER BY created_at DESC` of the query is embedded as sorting by the
`created_at` field (descending), and SQL `LIMIT n` with its SQLite semantics
(a negative argument disables the limit). -/

/-- A persisted `news` table row. -/
structure NewsRow where
  id : Nat
  original_title : String
  original_content : String
  alien_title : String
  alien_content : String
  vocab_word1 : String
  vocab_explanation1 : String
  vocab_sentence1 : Option String
  vocab_word2 : String
  vocab_explanation2 : String
  vocab_sentence2 : Option String
  vocab_word3 : String
  vocab_explanation3 : String
  vocab_sentence3 : Option String
  audio_path : Option String
  image_path : Option String
  video_path : Option String
  created_at : Nat
deriving DecidableEq, Repr

/-- The `VocabWord` DTO; `sentence` defaults to `None` when omitted. -/
structure VocabWord where
  word : String
  explanation : String
  sentence : Option String := none
deriving DecidableEq, Repr

/-- The `NewsResponse` DTO. -/
structure NewsResponse where
  id : Nat
  original_title : String
  original_content : String
  alien_title : String
  alien_content : String
  vocab_words : List VocabWord
  audio_path : Option String
  image_path : Option String
  video_path : Option String
  created_at : Nat
deriving DecidableEq, Repr

/-- Python `str.split(sep)` for a single-character separator. -/
def splitOnChar (sep : Char) : List Char → List (List Char)
  | [] => [[]]
  | c :: cs =>
    match splitOnChar sep cs with
    | [] => [[c]]
    | h :: t => if c = sep then [] :: h :: t else (c :: h) :: t

/-- Python `sep.join(parts)` for a single-character separator. -/
def joinChar (sep : Char) : List (List Char) → List Char
  | [] => []
  | [x] => x
  | x :: xs => x ++ sep :: joinChar sep xs

/-- `get_file_url`: `None` (or the empty string) maps to `None`; otherwise
drop the first `/`-separated path segment and prefix the static base URL. -/
def get_file_url (file_path : Option String) : Option String :=
  match file_path with
  | none => none
  | some p =>
    if p = "" then none
    else some (String.mk ("http://localhost:8003/data/".data ++
      joinChar '/' ((splitOnChar '/' p.data).drop 1)))

/-- Descending creation-time order used by `ORDER BY desc(News.created_at)`. -/
def createdDesc (a b : NewsRow) : Prop := b.created_at ≤ a.created_at

instance : DecidableRel createdDesc := fun _ _ => Nat.decLe _ _

instance : IsTotal NewsRow createdDesc := ⟨fun a b => Nat.le_total b.created_at a.created_at⟩

instance : IsTrans NewsRow createdDesc := ⟨fun _ _ _ h1 h2 => Nat.le_trans h2 h1⟩

/-- The query's `ORDER BY created_at DESC`, embedded as a concrete
(insertion) sort by descending `created_at`. -/
def orderByCreatedDesc (db : List NewsRow) : List NewsRow :=
  List.insertionSort createdDesc db

/-- SQL `LIMIT n` under SQLite semantics: a negative `n` means no limit. -/
def sqlLimit (n : Int) (rows : List NewsRow) : List NewsRow :=
  if n < 0 then rows else rows.take n.toNat

/-- `limit = min(limit, 20) if limit else 20`: the query parameter defaults
to 20 when absent, and both `None` and `0` are falsy in Python. -/
def effectiveLimit (limitParam : Option Int) : Int :=
  match limitParam with
  | none => 20
  | some n => if n ≠ 0 then min n 20 else 20

/-- The response built by the list endpoint `GET /news/` for one row: the
three vocab words carry no `sentence` field (the stored
`vocab_sentence1..3` columns are not read). -/
def newsToListResponse (item : NewsRow) : NewsResponse :=
  { id := item.id
    original_title := item.original_title
    original_content := item.original_content
    alien_title := item.alien_title
    alien_content := item.alien_content
    vocab_words :=
      [{ word := item.vocab_word1, explanation := item.vocab_explanation1 },
       { word := item.vocab_word2, explanation := item.vocab_explanation2 },
       { word := item.vocab_word3, explanation := item.vocab_explanation3 }]
    audio_path := get_file_url item.audio_path
    image_path := get_file_url item.image_path
    video_path := get_file_url item.video_path
    created_at := item.created_at }

/-- The response built by `GET /news/{id}` for one row: the vocab words
carry the stored sentence columns. -/
def newsToDetailResponse (item : NewsRow) : NewsResponse :=
  { id := item.id
    original_title := item.original_title
    original_content := item.original_content
    alien_title := item.alien_title
    alien_content := item.alien_content
    vocab_words :=
      [{ word := item.vocab_word1, explanation := item.vocab_explanation1,
         sentence := item.vocab_sentence1 },
       { word := item.vocab_word2, explanation := item.vocab_explanation2,
         sentence := item.vocab_sentence2 },
       { word := item.vocab_word3, explanation := item.vocab_explanation3,
         sentence := item.vocab_sentence3 }]
    audio_path := get_file_url item.audio_path
    image_path := get_file_url item.image_path
    video_path := get_file_url item.video_path
    created_at := item.created_at }

/-- `GET /news/`: apply the effective limit to the rows ordered by creation
time descending and map each row to its list response. -/
def get_news (limitParam : Option Int) (db : List NewsRow) : List NewsResponse :=
  (sqlLimit (effectiveLimit limitParam) (orderByCreatedDesc db)).map newsToListResponse

/-- `GET /news/{id}`: first row with the requested id, as a detail response,
or a 404 error. -/
def get_news_by_id (news_id : Nat) (db : List NewsRow) : Except Nat NewsResponse :=
  match db.find? (fun item => item.id == news_id) with
  | none => Except.error 404
  | some item => Except.ok (newsToDetailResponse item)

/-- Modelled from the claim's words only (for comparison with the code):
"N clamped to the range [1,20]". -/
def clampLimitClaim (n : Int) : Int := max 1 (min n 20)

/-- Two stored rows used as a concrete database. -/
def exRow (n : Nat) : NewsRow :=
  { id := n
    original_title := "t"
    original_content := "c"
    alien_title := "at"
    alien_content := "ac"
    vocab_word1 := "w1", vocab_explanation1 := "e1", vocab_sentence1 := none
    vocab_word2 := "w2", vocab_explanation2 := "e2", vocab_sentence2 := none
    vocab_word3 := "w3", vocab_explanation3 := "e3", vocab_sentence3 := none
    audio_path := none, image_path := none, video_path := none
    created_at := n }

/-- C6 counterexample: with `limit=0` the claim's clamp to `[1,20]` allows
at most one record, but the endpoint treats `0` as falsy, applies the
default of 20, and returns both records of a two-row database. -/
theorem get_news_limit_counterexample :
    (get_news (some 0) [exRow 1, exRow 2]).length = 2 ∧
    ¬ ((get_news (some 0) [exRow 1, exRow 2]).length ≤ (clampLimitClaim 0).toNat) := by
  refine ⟨rfl, ?_⟩
  intro h
  have e1 : (get_news (some 0) [exRow 1, exRow 2]).length = 2 := rfl
  have e2 : (clampLimitClaim 0).toNat = 1 := rfl
  rw [e1, e2] at h
  omega

/-- Descending creation-time order on responses. -/
def respCreatedDesc (a b : NewsResponse) : Prop := b.created_at ≤ a.created_at

/-- C6 as amended by the code: `GET /news/?limit=N` returns at most
`min(N, 20)` records when `N ≥ 1`; when the parameter is absent, and also
when `N = 0` (falsy in Python), the default of 20 applies; a negative `N`
reaches the SQL layer unclamped and disables the limit, returning every
record; and the returned records are always ordered by creation time
descending. -/
theorem get_news_spec (limitParam : Option Int) (db : List NewsRow) :
    (∀ n : Int, limitParam = some n → 1 ≤ n →
      (get_news limitParam db).length ≤ min n.toNat 20) ∧
    (limitParam = none ∨ limitParam = some 0 →
      (get_news limitParam db).length ≤ 20) ∧
    (∀ n : Int, limitParam = some n → n < 0 →
      (get_news limitParam db).length = db.length) ∧
    List.Sorted respCreatedDesc (get_news limitParam db) := by
  have hperm : (orderByCreatedDesc db).length = db.length :=
    (List.perm_insertionSort createdDesc db).length_eq
  refine ⟨?_, ?_, ?_, ?_⟩
  · rintro n rfl hn
    have hne : n ≠ 0 := by omega
    have hnneg : ¬ (min n 20 < 0) := by omega
    simp only [get_news, effectiveLimit, if_pos hne, sqlLimit, if_neg hnneg,
      List.length_map, List.length_take]
    omega
  · rintro (rfl | rfl)
    · simp only [get_news, effectiveLimit, sqlLimit]
      rw [if_neg (by norm_num)]
      simp only [List.length_map, List.length_take]
      omega
    · simp only [get_news, effectiveLimit, sqlLimit]
      rw [if_neg (by norm_num), if_neg (by norm_num)]
      simp only [List.length_map, List.length_take]
      omega
  · rintro n rfl hneg
    have hne : n ≠ 0 := by omega
    simp only [get_news, effectiveLimit, if_pos hne, sqlLimit,
      if_pos (show min n 20 < 0 by omega), List.length_map]
    exact hperm
  · have hsorted : List.Sorted createdDesc (orderByCreatedDesc db) :=
      List.sorted_insertionSort createdDesc db
    have hlim : List.Sorted createdDesc
        (sqlLimit (effectiveLimit limitParam) (orderByCreatedDesc db)) := by
      rw [sqlLimit]
      by_cases hc : effectiveLimit limitParam < 0
      · rw [if_pos hc]; exact hsorted
      · rw [if_neg hc]
        exact List.Pairwise.sublist (List.take_sublist _ _) hsorted
    exact List.Pairwise.map _ (fun a b hab => hab) hlim

/-- Concrete witness for C6 (amended): on a two-row database, `limit=5`
returns both rows, an absent parameter and `limit=0` return both rows under
the default of 20, and `limit=-1` disables the limit and returns both
rows. -/
theorem get_news_spec_witness :
    ((get_news (some 5) [exRow 1, exRow 2]).length ≤ min (Int.toNat 5) 20) ∧
    ((get_news none [exRow 1, exRow 2]).length ≤ 20) ∧
    ((get_news (some 0) [exRow 1, exRow 2]).length ≤ 20) ∧
    ((get_news (some (-1)) [exRow 1, exRow 2]).length = 2) :=
  ⟨(get_news_spec (some 5) [exRow 1, exRow 2]).1 5 rfl (by omega),
   (get_news_spec none [exRow 1, exRow 2]).2.1 (Or.inl rfl),
   (get_news_spec (some 0) [exRow 1, exRow 2]).2.1 (Or.inr rfl),
   (get_news_spec (some (-1)) [exRow 1, exRow 2]).2.2.1 (-1) rfl (by omega)⟩

/-- C10.  The two news read endpoints disagree on vocab sentences: every
response of the list endpoint carries its three vocab words with `sentence`
always `None` (the stored `vocab_sentence1..3` columns are never read),
while the by-id endpoint returns, for the same stored record, vocab words
carrying the stored sentence columns — so a record's sentences are only
observable through the by-id endpoint. -/
theorem news_endpoints_vocab_sentences (item : NewsRow) (limitParam : Option Int)
    (db : List NewsRow) :
    (∀ resp ∈ get_news limitParam db,
      resp.vocab_words.map (fun w => w.sentence) = [none, none, none]) ∧
    get_news_by_id item.id [item] = Except.ok (newsToDetailResponse item) ∧
    (newsToDetailResponse item).vocab_words.map (fun w => w.sentence) =
      [item.vocab_sentence1, item.vocab_sentence2, item.vocab_sentence3] ∧
    (newsToListResponse item).vocab_words.map (fun w => w.word) =
      (newsToDetailResponse item).vocab_words.map (fun w => w.word) := by
  refine ⟨?_, ?_, rfl, rfl⟩
  · intro resp hresp
    rw [get_news, List.mem_map] at hresp
    obtain ⟨row, _, rfl⟩ := hresp
    rfl
  · simp [get_news_by_id]

/-- A stored record carrying sentence values. -/
def exRowS : NewsRow :=
  { exRow 1 with
    vocab_sentence1 := some "s1"
    vocab_sentence2 := some "s2"
    vocab_sentence3 := some "s3" }

/-- Concrete witness for C10 at a stored record carrying sentences: the
list endpoint response for it shows no sentences, while the by-id endpoint
returns them. -/
theorem news_endpoints_vocab_sentences_witness :
    (newsToListResponse exRowS).vocab_words.map (fun w => w.sentence) =
      [none, none, none] ∧
    get_news_by_id 1 [exRowS] = Except.ok (newsToDetailResponse exRowS) ∧
    (newsToDetailResponse exRowS).vocab_words.map (fun w => w.sentence) =
      [some "s1", some "s2", some "s3"] := by
  refine ⟨?_, ?_, ?_⟩
  · exact (news_endpoints_vocab_sentences exRowS (some 20) [exRowS]).1 _ (by decide)
  · exact (news_endpoints_vocab_sentences exRowS (some 20) []).2.1
  · exact (news_endpoints_vocab_sentences exRowS (some 20) []).2.2.1

end Api

namespace Pipeline

/-! ### process_article and job (src/cron/main.py, lines 828-1034)

The per-article pipeline is embedded with its external services as oracles:
`imageRes` is the value returned by the image-generation stage, `audioRes`
and `videoRes` the values returned by `generate_audio` and `generate_video`.
Python exceptions raised by dictionary or list accesses are represented by
the early-return error outcome of the per-article `try/except` handler,
which logs and returns `None` while keeping any side effects already
performed. -/

/-- A fetched news article (title and description). -/
structure Article where
  title : String
  description : String
deriving DecidableEq, Repr

/-- One entry of the `vocab` list of the parsed LLM response. -/
structure VocabEntry where
  word : String
  explanation : String
deriving DecidableEq, Repr

/-- The parsed LLM response (`alien_data`); each key may be missing, and a
missing key raises `KeyError` at its first access. -/
structure AlienData where
  character_name : Option String
  emotion : Option String
  alien_title : Option String
  alien_content : Option String
  vocab : Option (List VocabEntry)
deriving DecidableEq, Repr

/-- The value produced by the image-generation stage.  On success
`generate_image_with_runninghub` / `generate_image_with_gemini` return the
bare path string; on failure they (and `generate_character_image`'s own
handler) return the tuple `(None, None)`. -/
inductive ImageResult where
  | path (p : String)
  | nonePair
deriving DecidableEq, Repr

/-- Python truthiness of the image-stage value, as tested by
`if not image_path:`.  A non-empty string is truthy — and so is the
`(None, None)` tuple, because a 2-tuple is a non-empty sequence. -/
def ImageResult.truthy : ImageResult → Bool
  | .path p => !(p == "")
  | .nonePair => true

/-- The configured video service. -/
inductive VideoService where
  | runninghub
  | did
deriving DecidableEq, Repr

/-- The `News` row constructed by `process_article` (the fields it sets).
`image_path` holds whatever value the image stage produced, exactly as the
source passes it through. -/
structure NewsInsert where
  original_title : String
  original_content : String
  alien_title : String
  alien_content : String
  vocab_word1 : String
  vocab_explanation1 : String
  vocab_word2 : String
  vocab_explanation2 : String
  vocab_word3 : String
  vocab_explanation3 : String
  audio_path : Option String
  image_path : ImageResult
  video_path : String
deriving DecidableEq, Repr

/-- Observable outcome of one `process_article` call: its return value, the
generation work it performed, and the rows it added to the session. -/
structure ArticleOutcome where
  result : Option NewsInsert
  audioCalled : Bool
  videoCalled : Bool
  added : List NewsInsert
deriving DecidableEq, Repr

/-- `process_article`.  Control flow follows the source: the prints and
`save_news_text` access `character_name`, `emotion`, `alien_title`,
`alien_content` and `vocab` (a missing key raises `KeyError`, which the
per-article handler turns into `None` before any generation); the image
stage's value is tested with `if not image_path:`; `generate_audio_content`
then indexes `vocab[0..2]` (fewer than 3 entries raise `IndexError` — after
image generation but before audio generation); audio is generated for the
RunningHub service and for D-ID without text-to-speech; video generation
follows; only on full success is the `News` row built and added to the
session. -/
def process_article (article : Article) (alienData : AlienData)
    (service : VideoService) (didTTSEnv : Bool) (imageRes : ImageResult)
    (audioRes : Option String) (videoRes : Option String) : ArticleOutcome :=
  match alienData.character_name, alienData.emotion, alienData.alien_title,
      alienData.alien_content, alienData.vocab with
  | some _, some _, some alien_title, some alien_content, some vocab =>
    if imageRes.truthy = false then ⟨none, false, false, []⟩
    else if hv : vocab.length < 3 then ⟨none, false, false, []⟩
    else
      let v0 := vocab.get ⟨0, by omega⟩
      let v1 := vocab.get ⟨1, by omega⟩
      let v2 := vocab.get ⟨2, by omega⟩
      if service = VideoService.runninghub ∨
          (service = VideoService.did ∧ didTTSEnv = false) then
        match audioRes with
        | none => ⟨none, true, false, []⟩
        | some audio_path =>
          match videoRes with
          | none => ⟨none, true, true, []⟩
          | some video_path =>
            let news : NewsInsert :=
              ⟨article.title, article.description, alien_title, alien_content,
               v0.word, v0.explanation, v1.word, v1.explanation,
               v2.word, v2.explanation, some audio_path, imageRes, video_path⟩
            ⟨some news, true, true, [news]⟩
      else
        match videoRes with
        | none => ⟨none, false, true, []⟩
        | some video_path =>
          let news : NewsInsert :=
            ⟨article.title, article.description, alien_title, alien_content,
             v0.word, v0.explanation, v1.word, v1.explanation,
             v2.word, v2.explanation, none, imageRes, video_path⟩
          ⟨some news, false, true, [news]⟩
  | _, _, _, _, _ => ⟨none, false, false, []⟩

/-- The article used by the concrete scenarios. -/
def exArticle : Article := ⟨"X", "Y"⟩

/-- A well-formed three-entry vocab list. -/
def exVocab3 : List VocabEntry := [⟨"a", "e1"⟩, ⟨"b", "e2"⟩, ⟨"c", "e3"⟩]

/-- A fully valid parsed response. -/
def exDataValid : AlienData := ⟨some "Zog", some "happy", some "T", some "C", some exVocab3⟩

/-- C3.  Evaluating `process_article` at the image stage's failure value:
the `(None, None)` tuple returned on failure is truthy, so the
`if not image_path:` guard does not fire; the item is *not* aborted at the
image stage — audio generation and video generation are both performed
(video generation then fails on the unusable image value, which is how the
call eventually returns `None`). -/
theorem process_article_image_failure_eval :
    (process_article exArticle exDataValid VideoService.runninghub false
      ImageResult.nonePair (some "data/audio/a.mp3") none).result = none ∧
    (process_article exArticle exDataValid VideoService.runninghub false
      ImageResult.nonePair (some "data/audio/a.mp3") none).audioCalled = true ∧
    (process_article exArticle exDataValid VideoService.runninghub false
      ImageResult.nonePair (some "data/audio/a.mp3") none).videoCalled = true ∧
    ImageResult.truthy ImageResult.nonePair = true := by decide

/-- The six emotions the prompt allows. -/
def allowedEmotions : List String :=
  ["happy", "excited", "surprised", "curious", "proud", "thoughtful"]

/-- A parsed response whose emotion lies outside the 6-value enum. -/
def exDataAngry : AlienData := ⟨some "Zog", some "angry", some "T", some "C", some exVocab3⟩

/-- C4 counterexample: a segment whose emotion (`"angry"`) is outside the
6-value enum is *not* rejected or flagged — `process_article` processes it
fully and adds its row to the session. -/
theorem process_article_no_emotion_validation :
    ¬ "angry" ∈ allowedEmotions ∧
    (process_article exArticle exDataAngry VideoService.runninghub false
      (ImageResult.path "data/images/i.png") (some "data/audio/a.mp3")
      (some "data/videos/v.mp4")).result ≠ none ∧
    (process_article exArticle exDataAngry VideoService.runninghub false
      (ImageResult.path "data/images/i.png") (some "data/audio/a.mp3")
      (some "data/videos/v.mp4")).added ≠ [] := by decide

/-- C4 as amended by the code: there is no explicit validation step.  A
missing required key makes the item fail before any generation work, and a
vocab list shorter than 3 makes it fail (both via exceptions caught by the
per-article handler — a skipped item, not a crash); but the emotion value is
never checked: with every key present, a 3-entry vocab and successful
backends, the item is processed to a `News` row for *any* emotion string,
inside the enum or not. -/
theorem process_article_validation_spec (article : Article) (alienData : AlienData)
    (service : VideoService) (didTTSEnv : Bool) (imageRes : ImageResult)
    (audioRes videoRes : Option String) :
    (alienData.character_name = none ∨ alienData.emotion = none ∨
        alienData.alien_title = none ∨ alienData.alien_content = none ∨
        alienData.vocab = none →
      process_article article alienData service didTTSEnv imageRes audioRes videoRes =
        ⟨none, false, false, []⟩) ∧
    (∀ vocabList, alienData.vocab = some vocabList → vocabList.length < 3 →
      (process_article article alienData service didTTSEnv imageRes audioRes
        videoRes).result = none) ∧
    (∀ name emotion t c vocabList,
      alienData = ⟨some name, some emotion, some t, some c, some vocabList⟩ →
      3 ≤ vocabList.length → imageRes.truthy = true →
      audioRes ≠ none → videoRes ≠ none →
      (process_article article alienData service didTTSEnv imageRes audioRes
        videoRes).result ≠ none) := by
  obtain ⟨cn, em, ti, co, vo⟩ := alienData
  refine ⟨?_, ?_, ?_⟩
  · intro h
    rcases cn with _ | cn <;> rcases em with _ | em <;> rcases ti with _ | ti <;>
      rcases co with _ | co <;> rcases vo with _ | vo <;>
      simp_all [process_article]
  · intro vocabList hvo hlen
    rcases cn with _ | cn <;> rcases em with _ | em <;> rcases ti with _ | ti <;>
      rcases co with _ | co <;>
      simp_all [process_article]
  · rintro name emotion t c vocabList ⟨rfl, rfl, rfl, rfl, rfl⟩ hlen htr ha hv
    rcases audioRes with _ | ap
    · exact absurd rfl ha
    rcases videoRes with _ | vp
    · exact absurd rfl hv
    have hlen2 : ¬ (vocabList.length < 3) := by omega
    by_cases hsv : service = VideoService.runninghub ∨
        (service = VideoService.did ∧ didTTSEnv = false) <;>
      simp [process_article, htr, hlen2, hsv]

/-- Concrete witness for C4 (amended): a response missing `alien_title`
fails before any generation; a 2-entry vocab fails; the out-of-enum emotion
`angry` is processed to a row. -/
theorem process_article_validation_spec_witness :
    process_article exArticle ⟨some "Zog", some "happy", none, some "C", some exVocab3⟩
      VideoService.runninghub false (ImageResult.path "i.png") (some "a.mp3")
      (some "v.mp4") = ⟨none, false, false, []⟩ ∧
    (process_article exArticle ⟨some "Zog", some "happy", some "T", some "C",
        some [⟨"a", "e1"⟩, ⟨"b", "e2"⟩]⟩
      VideoService.runninghub false (ImageResult.path "i.png") (some "a.mp3")
      (some "v.mp4")).result = none ∧
    (process_article exArticle exDataAngry VideoService.runninghub false
      (ImageResult.path "i.png") (some "a.mp3") (some "v.mp4")).result ≠ none :=
  ⟨(process_article_validation_spec exArticle
      ⟨some "Zog", some "happy", none, some "C", some exVocab3⟩
      VideoService.runninghub false (ImageResult.path "i.png") (some "a.mp3")
      (some "v.mp4")).1 (by simp),
   (process_article_validation_spec exArticle
      ⟨some "Zog", some "happy", some "T", some "C", some [⟨"a", "e1"⟩, ⟨"b", "e2"⟩]⟩
      VideoService.runninghub false (ImageResult.path "i.png") (some "a.mp3")
      (some "v.mp4")).2.1 [⟨"a", "e1"⟩, ⟨"b", "e2"⟩] rfl (by decide),
   (process_article_validation_spec exArticle exDataAngry
      VideoService.runninghub false (ImageResult.path "i.png") (some "a.mp3")
      (some "v.mp4")).2.2 "Zog" "angry" "T" "C" exVocab3 rfl (by decide) (by decide)
      (by decide) (by decide)⟩

/-- The SQLAlchemy session as seen by `job`: rows already committed in the
database, and rows added (pending) but not yet committed. -/
structure Session where
  committed : List NewsInsert
  pending : List NewsInsert
deriving DecidableEq, Repr

/-- `session.add(news)`: appends to the pending rows; nothing reaches the
database yet. -/
def Session.add (s : Session) (row : NewsInsert) : Session :=
  { s with pending := s.pending ++ [row] }

/-- The `for article in articles:` loop of `job`: each successful
`process_article` call has added its row to the session and increments the
success counter.  `outcomes` is the list of per-article return values. -/
def runArticles : List (Option NewsInsert) → Session → Session × Nat
  | [], s => (s, 0)
  | none :: rest, s => runArticles rest s
  | some row :: rest, s =>
    let r := runArticles rest (s.add row)
    (r.1, r.2 + 1)

/-- `job`'s persistence: run the loop, then a single `session.commit()`.
`insertFails` tells which rows' inserts the database rejects; if any pending
row fails, the commit raises and the `except` branch calls
`session.rollback()`, discarding every pending row; else all pending rows
are committed.  Returns the database contents after the job and the success
count. -/
def job (dbBefore : List NewsInsert) (outcomes : List (Option NewsInsert))
    (insertFails : NewsInsert → Bool) : List NewsInsert × Nat :=
  let r := runArticles outcomes ⟨dbBefore, []⟩
  if r.1.pending.any insertFails then (r.1.committed, r.2)
  else (r.1.committed ++ r.1.pending, r.2)

/-- Modelled from the spec's words (claim C2): per-item commit semantics —
each item's insert is its own committed transaction, and a failing insert
rolls back only that one record, leaving every other item's record in the
database. -/
def perItemPersistClaim (dbBefore : List NewsInsert)
    (outcomes : List (Option NewsInsert)) (insertFails : NewsInsert → Bool) :
    List NewsInsert :=
  dbBefore ++ (outcomes.filterMap id).filter (fun r => !insertFails r)

/-- Two distinct rows for the concrete batch. -/
def exNews1 : NewsInsert :=
  ⟨"t1", "c1", "at", "ac", "a", "e1", "b", "e2", "c", "e3",
   some "a1.mp3", ImageResult.path "i1.png", "v1.mp4"⟩

/-- Second row, differing from `exNews1`. -/
def exNews2 : NewsInsert :=
  ⟨"t2", "c2", "at", "ac", "a", "e1", "b", "e2", "c", "e3",
   some "a2.mp3", ImageResult.path "i2.png", "v2.mp4"⟩

/-- C2 counterexample: in a batch of two successfully generated articles
where only the second row's insert fails, the claim's per-item semantics
keeps the first row in the database, but `job` commits once for the whole
batch: the failing commit rolls back both rows and the database stays
empty. -/
theorem job_per_item_commit_counterexample :
    (job [] [some exNews1, some exNews2] (fun r => r == exNews2)).1 = [] ∧
    perItemPersistClaim [] [some exNews1, some exNews2] (fun r => r == exNews2) =
      [exNews1] ∧
    (job [] [some exNews1, some exNews2] (fun r => r == exNews2)).1 ≠
      perItemPersistClaim [] [some exNews1, some exNews2] (fun r => r == exNews2) := by
  decide

theorem runArticles_spec (outcomes : List (Option NewsInsert)) :
    ∀ c p, runArticles outcomes ⟨c, p⟩ =
      (⟨c, p ++ outcomes.filterMap id⟩, (outcomes.filterMap id).length) := by
  induction outcomes with
  | nil => intro c p; simp [runArticles]
  | cons o rest ih =>
    intro c p
    cases o with
    | none => simp [runArticles, ih, List.filterMap_cons]
    | some row => simp [runArticles, Session.add, ih, List.filterMap_cons]

/-- C2 as amended by the code: persistence is batch-level, not per-item.
All successful articles' rows are added to one session and committed once
after the loop; if any row's insert fails, that single commit raises and
the rollback discards the whole batch (the database keeps only its prior
contents — no record of the batch survives); if no insert fails, all rows
of the batch are committed together.  The reported success count is the
number of articles that produced a row. -/
theorem job_persistence_spec (dbBefore : List NewsInsert)
    (outcomes : List (Option NewsInsert)) (insertFails : NewsInsert → Bool) :
    ((outcomes.filterMap id).any insertFails = true →
      (job dbBefore outcomes insertFails).1 = dbBefore) ∧
    ((outcomes.filterMap id).any insertFails = false →
      (job dbBefore outcomes insertFails).1 = dbBefore ++ outcomes.filterMap id) ∧
    (job dbBefore outcomes insertFails).2 = (outcomes.filterMap id).length := by
  have h := runArticles_spec outcomes dbBefore []
  refine ⟨?_, ?_, ?_⟩
  · intro hfail
    simp [job, h, hfail]
  · intro hok
    simp [job, h, hok]
  · by_cases hc : (outcomes.filterMap id).any insertFails <;> simp [job, h, hc]

/-- Concrete witness for C2 (amended): a failing batch leaves the database
with only its prior contents; a clean batch of two successes (with one
skipped article in between) commits both rows and reports 2 successes. -/
theorem job_persistence_spec_witness :
    (job [exNews1] [some exNews2] (fun r => r == exNews2)).1 = [exNews1] ∧
    (job [] [some exNews1, none, some exNews2] (fun _ => false)).1 =
      [] ++ [some exNews1, none, some exNews2].filterMap id ∧
    (job [] [some exNews1, none, some exNews2] (fun _ => false)).2 =
      ([some exNews1, none, some exNews2].filterMap id).length :=
  ⟨(job_persistence_spec [exNews1] [some exNews2] (fun r => r == exNews2)).1 (by decide),
   (job_persistence_spec [] [some exNews1, none, some exNews2] (fun _ => false)).2.1
     (by decide),
   (job_persistence_spec [] [some exNews1, none, some exNews2] (fun _ => false)).2.2⟩

end Pipeline

namespace Story

/-! ### The story sub-pipeline (src/cron/story.py)

`generate_scene_images_and_audio` (lines 649-713) loops over scenes 1..4,
appending each successfully generated scene image to `scene_images` and,
only when the image succeeded, attempting the narration audio and appending
it to `audio_paths`.  `save_story_to_db` (lines 407-510) inserts the story
row and then, for `i` in 1..4, inserts a scene row whenever `scene{i}` is a
key of the story data and `i <= len(scene_images)`, pairing scene number `i`
with `scene_images[i-1]` — i.e. positionally.  `generate_scene_image` and
`generate_audio` are oracles mapping the scene number to the produced path
or `None`. -/

/-- The parsed story JSON: each scene key may be missing. -/
structure StoryData where
  title : Option String
  story : Option String
  scene1 : Option String
  scene1_story : Option String
  scene2 : Option String
  scene2_story : Option String
  scene3 : Option String
  scene3_story : Option String
  scene4 : Option String
  scene4_story : Option String
  moral : Option String
deriving DecidableEq, Repr

/-- `story_data.get(f"scene{i}")`. -/
def StoryData.scene (sd : StoryData) : Nat → Option String
  | 1 => sd.scene1
  | 2 => sd.scene2
  | 3 => sd.scene3
  | 4 => sd.scene4
  | _ => none

/-- `story_data.get(f"scene{i}_story")`. -/
def StoryData.sceneStory (sd : StoryData) : Nat → Option String
  | 1 => sd.scene1_story
  | 2 => sd.scene2_story
  | 3 => sd.scene3_story
  | 4 => sd.scene4_story
  | _ => none

/-- One iteration of the scene loop: on image success append the image and
then, if the narration audio also succeeds, append it; on image failure
append nothing (the lists just stay shorter). -/
def sceneStep (imgGen audGen : Nat → Option String)
    (acc : List String × List String) (i : Nat) : List String × List String :=
  match imgGen i with
  | none => acc
  | some img =>
    match audGen i with
    | none => (acc.1 ++ [img], acc.2)
    | some aud => (acc.1 ++ [img], acc.2 ++ [aud])

/-- `generate_scene_images_and_audio`: the loop over scenes 1..4.  The
story data only feeds the oracles' prompts (accessed with defaulting
`.get`, so no exceptions arise from missing keys). -/
def generate_scene_images_and_audio (_sd : StoryData)
    (imgGen audGen : Nat → Option String) : List String × List String :=
  [1, 2, 3, 4].foldl (sceneStep imgGen audGen) ([], [])

/-- The story row inserted by `save_story_to_db`. -/
structure StoryInsert where
  title : String
  story_text : String
  character_name : String
  character_image_path : String
  story_path : String
  voice_id : Option String
  moral : String
  timestamp : String
  date : String
deriving DecidableEq, Repr

/-- A scene row inserted by `save_story_to_db`. -/
structure SceneRow where
  story_id : Nat
  scene_number : Nat
  description : String
  scene_story : String
  image_path : String
  audio_path : Option String
deriving DecidableEq, Repr

/-- `save_story_to_db`: insert the story row, then for `i` in 1..4 insert a
scene row when `scene{i}` is present and `i <= len(scene_images)`, with
image `scene_images[i-1]` and audio `audio_paths[i-1]` when
`i <= len(audio_paths)`.  Returns the inserted story row and scene rows of
the committed transaction. -/
def save_story_to_db (story_id : Nat) (sd : StoryData) (character_name : String)
    (voice_id : Option String) (character_image_path story_path timestamp date : String)
    (scene_images audio_paths : List String) : StoryInsert × List SceneRow :=
  let story : StoryInsert :=
    ⟨sd.title.getD "Untitled", sd.story.getD "", character_name,
     character_image_path, story_path, voice_id, sd.moral.getD "", timestamp, date⟩
  let scenes := (List.range' 1 4).filterMap fun i =>
    if (sd.scene i).isSome = true ∧ i ≤ scene_images.length then
      some ⟨story_id, i, (sd.scene i).getD "", (sd.sceneStory i).getD "",
        scene_images.getD (i - 1) "",
        if i ≤ audio_paths.length then some (audio_paths.getD (i - 1) "") else none⟩
    else none
  (story, scenes)

/-- The guard in `generate_adventure_story_with_images` (lines 871-873):
the story is saved unless the scene image list or the audio list came back
empty. -/
def storySaveGate (scene_images audio_paths : List String) : Bool :=
  !scene_images.isEmpty && !audio_paths.isEmpty

/-- A story whose four scene keys are all present. -/
def exStoryData : StoryData :=
  ⟨some "Title", some "Story", some "d1", some "s1", some "d2", some "s2",
   some "d3", some "s3", some "d4", some "s4", some "Moral"⟩

/-- Image oracle for the concrete scenario: scene 2 fails, the others
succeed. -/
def exImgGen : Nat → Option String
  | 1 => some "img1"
  | 3 => some "img3"
  | 4 => some "img4"
  | _ => none

/-- Audio oracle for the concrete scenario: every narration succeeds. -/
def exAudGen : Nat → Option String
  | 1 => some "aud1"
  | 2 => some "aud2"
  | 3 => some "aud3"
  | 4 => some "aud4"
  | _ => none

/-- C5 counterexample: when scene 2's image fails and scenes 1, 3, 4
succeed, the generator returns the shorter list `["img1", "img3", "img4"]`,
but `save_story_to_db` inserts scene records positionally: scene number 2
is stored with scene 3's image and scene number 3 with scene 4's image,
while no record numbered 4 is stored at all even though scene 4's image was
generated — the failure of a middle scene *does* shift other scenes'
data. -/
theorem story_scene_shift_counterexample :
    (generate_scene_images_and_audio exStoryData exImgGen exAudGen).1 =
      ["img1", "img3", "img4"] ∧
    exImgGen 2 = none ∧
    exImgGen 4 = some "img4" ∧
    (save_story_to_db 1 exStoryData "Zog" (some "vc") "char.png" "story.json" "ts" "dt"
        (generate_scene_images_and_audio exStoryData exImgGen exAudGen).1
        (generate_scene_images_and_audio exStoryData exImgGen exAudGen).2).2.map
        (fun s => (s.scene_number, s.image_path)) =
      [(1, "img1"), (2, "img3"), (3, "img4")] := by decide

theorem sceneLoop_images (imgGen audGen : Nat → Option String) :
    ∀ (is : List Nat) (acc : List String × List String),
      (is.foldl (sceneStep imgGen audGen) acc).1 = acc.1 ++ is.filterMap imgGen := by
  intro is
  induction is with
  | nil => intro acc; simp
  | cons i rest ih =>
    intro acc
    cases hig : imgGen i with
    | none => simp [sceneStep, hig, List.filterMap_cons, ih]
    | some img =>
      cases hag : audGen i <;>
        simp [sceneStep, hig, hag, List.filterMap_cons, ih, List.append_assoc]

/-- C5 as amended by the code: a failing scene image only shortens the
lists — `scene_images` is exactly the in-order list of successful images,
and the story is still saved whenever at least one scene image and one
narration audio were produced — but the scene records are *positional*:
for a story with all four scene keys, the inserted scene rows carry scene
numbers `1 .. len(scene_images)`, pairing scene number `i` with the `i`-th
surviving image, so a failure of a middle scene shifts later images onto
earlier scene numbers and drops the highest scene numbers. -/
theorem story_scene_degradation_spec (sd : StoryData)
    (imgGen audGen : Nat → Option String) (story_id : Nat)
    (character_name : String) (voice_id : Option String)
    (cip sp ts dt : String) (audio_paths : List String) :
    ((generate_scene_images_and_audio sd imgGen audGen).1 =
      [1, 2, 3, 4].filterMap imgGen) ∧
    ((generate_scene_images_and_audio sd imgGen audGen).1 ≠ [] → audio_paths ≠ [] →
      storySaveGate (generate_scene_images_and_audio sd imgGen audGen).1
        audio_paths = true) ∧
    (∀ scene_images : List String,
      (sd.scene 1).isSome = true → (sd.scene 2).isSome = true →
      (sd.scene 3).isSome = true → (sd.scene 4).isSome = true →
      scene_images.length ≤ 4 →
      (save_story_to_db story_id sd character_name voice_id cip sp ts dt
          scene_images audio_paths).2.map (fun s => (s.scene_number, s.image_path)) =
        (List.range' 1 scene_images.length).map
          (fun i => (i, scene_images.getD (i - 1) ""))) := by
  refine ⟨?_, ?_, ?_⟩
  · have h := sceneLoop_images imgGen audGen [1, 2, 3, 4] ([], [])
    simpa [generate_scene_images_and_audio] using h
  · intro h1 h2
    simp [storySaveGate, List.isEmpty_iff, h1, h2]
  · intro scene_images h1 h2 h3 h4 hlen
    have hcases : scene_images.length = 0 ∨ scene_images.length = 1 ∨
        scene_images.length = 2 ∨ scene_images.length = 3 ∨
        scene_images.length = 4 := by omega
    rcases hcases with h | h | h | h | h <;>
      simp [save_story_to_db, h, h1, h2, h3, h4, List.range', List.filterMap_cons]

/-- Concrete witness for C5 (amended), at the scenario where scene 2's
image fails: the image list is the in-order list of the three successes,
the story is still saved, and the inserted scene rows are numbered 1..3
with positionally paired images. -/
theorem story_scene_degradation_spec_witness :
    (generate_scene_images_and_audio exStoryData exImgGen exAudGen).1 =
      [1, 2, 3, 4].filterMap exImgGen ∧
    storySaveGate (generate_scene_images_and_audio exStoryData exImgGen exAudGen).1
      (generate_scene_images_and_audio exStoryData exImgGen exAudGen).2 = true ∧
    (save_story_to_db 1 exStoryData "Zog" (some "vc") "char.png" "story.json" "ts" "dt"
        ["img1", "img3", "img4"]
        (generate_scene_images_and_audio exStoryData exImgGen exAudGen).2).2.map
        (fun s => (s.scene_number, s.image_path)) =
      (List.range' 1 (["img1", "img3", "img4"] : List String).length).map
        (fun i => (i, (["img1", "img3", "img4"] : List String).getD (i - 1) "")) :=
  ⟨(story_scene_degradation_spec exStoryData exImgGen exAudGen 1 "Zog" (some "vc")
      "char.png" "story.json" "ts" "dt"
      (generate_scene_images_and_audio exStoryData exImgGen exAudGen).2).1,
   (story_scene_degradation_spec exStoryData exImgGen exAudGen 1 "Zog" (some "vc")
      "char.png" "story.json" "ts" "dt"
      (generate_scene_images_and_audio exStoryData exImgGen exAudGen).2).2.1
      (by decide) (by decide),
   (story_scene_degradation_spec exStoryData exImgGen exAudGen 1 "Zog" (some "vc")
      "char.png" "story.json" "ts" "dt"
      (generate_scene_images_and_audio exStoryData exImgGen exAudGen).2).2.2
      ["img1", "img3", "img4"] (by decide) (by decide) (by decide) (by decide)
      (by decide)⟩

end Story
